import Mathlib

/-!
Verification of the BlockNative gas oracle backend
(src/ethers-middleware/src/gas_oracle/blocknative.rs).

The embedding models:
- IEEE 754 binary64 values as the rationals they denote, with round-to-nearest-even
  rounding made explicit (the source multiplies an f64 field by 100.0 and casts);
- u64 quantities as Nat (with the saturating float-to-u64 cast of Rust made explicit);
- U256 arithmetic as Nat (every quantity involved stays far below 2^256, so U256
  arithmetic is exact);
- panics (unwrap on None/Err, todo) as an explicit PanicOr outcome type;
- the external HTTP transport and the serde_json decoder as parameters, and the
  tracing log side effect as returned data.
-/

set_option autoImplicit false
set_option maxRecDepth 16000

/-! ### Binary64 rounding model

A finite f64 value is a rational of the form m * 2^(e-52).  `roundDouble` rounds an
arbitrary rational to the nearest binary64 value (ties to even), handling the
subnormal range by clamping the exponent at -1022.  Values at or above 2^1024
stand for overflow to infinity; the saturating u64 cast treats them the same way
Rust treats infinity (saturation), so no separate infinity marker is needed.
NaN never arises in the modelled computations.
-/

/-- Fuel-bounded floor of the base-2 logarithm of a natural number. -/
def log2fuel : Nat → Nat → Nat
  | 0, _ => 0
  | fuel + 1, n => if 2 ≤ n then log2fuel fuel (n / 2) + 1 else 0

/-- Decide whether 2^e ≤ a / b, for natural a, b with b ≠ 0. -/
def le2pow (e : Int) (a b : Nat) : Bool :=
  if 0 ≤ e then decide (b * 2 ^ e.toNat ≤ a) else decide (b ≤ a * 2 ^ (-e).toNat)

/-- Floor of the base-2 logarithm of the positive rational a / b. -/
def ilog2 (a b : Nat) : Int :=
  let c : Int := (log2fuel 1100 a : Int) - (log2fuel 1100 b : Int)
  if le2pow (c + 1) a b then c + 1 else if le2pow c a b then c else c - 1

/-- Round the nonnegative fraction A / B to the nearest integer, ties to even. -/
def rnAtQuantum (A B : Nat) : Nat :=
  let m0 := A / B
  let r := A % B
  if 2 * r < B then m0
  else if B < 2 * r then m0 + 1
  else if m0 % 2 = 0 then m0 else m0 + 1

/-- The rational rn * 2^s for a natural mantissa rn and an integer exponent s. -/
def dyadic (rn : Nat) (s : Int) : ℚ :=
  if 0 ≤ s then ((rn * 2 ^ s.toNat : Nat) : ℚ) else ((rn : ℚ) / ((2 ^ (-s).toNat : Nat) : ℚ))

/-- Round the positive rational a / b to the nearest binary64 value (ties to even). -/
def roundPos (a b : Nat) : ℚ :=
  let e := max (ilog2 a b) (-1022)
  let s := e - 52
  if 0 ≤ s then dyadic (rnAtQuantum a (b * 2 ^ s.toNat)) s
  else dyadic (rnAtQuantum (a * 2 ^ (-s).toNat) b) s

/-- Round a rational to the nearest binary64 value (ties to even), the rounding
performed by every IEEE 754 f64 arithmetic operation. -/
def roundDouble (x : ℚ) : ℚ :=
  if x = 0 then 0
  else if 0 < x then roundPos x.num.toNat x.den
  else -roundPos (-x.num).toNat x.den

/-- Saturating f64-to-u64 cast (Rust `as u64` on a float): negative values go to 0,
values at or above 2^64 go to u64::MAX, and otherwise the value is truncated. -/
def f64ToU64 (y : ℚ) : Nat :=
  if y < 0 then 0
  else if (18446744073709551616 : ℚ) ≤ y then 18446744073709551615
  else y.num.toNat / y.den

/-! ### Data model -/

/-- Modelled from the spec: GasCategory is declared in the gas_oracle module, outside
the provided source file; the spec fixes the closed set SafeLow, Standard, Fast,
Fastest. -/
inductive GasCategory where
  | SafeLow
  | Standard
  | Fast
  | Fastest
  deriving DecidableEq

/-- Modelled from the spec: GWEI_TO_WEI is declared in the gas_oracle module, outside
the provided source file; the spec states that gwei-to-wei conversion multiplies
by 10^9. -/
def GWEI_TO_WEI : Nat := 1000000000

/-- Modelled from the spec: GasOracleError is declared in the gas_oracle module,
outside the provided source file.  The source wraps decode failures in the
SerdeJsonError variant and propagates transport failures with the question-mark
operator; the spec calls the latter the transport-error kind. -/
inductive GasOracleError where
  | HttpClientError (e : String)
  | SerdeJsonError (e : String)
  deriving DecidableEq

/-- Decoded confidence-tier entry of the provider response (struct EstimatedPrice).
The two fee fields are f64 values, modelled as the rationals they denote. -/
structure EstimatedPrice where
  confidence : Nat
  price : Nat
  max_priority_fee_per_gas : ℚ
  max_fee_per_gas : ℚ
  deriving DecidableEq

/-- Decoded per-block estimate of the provider response (struct BlockPrice). -/
structure BlockPrice where
  block_number : Nat
  estimated_transaction_count : Nat
  base_fee_per_gas : ℚ
  estimated_prices : List EstimatedPrice
  deriving DecidableEq

/-- Decoded provider response (struct BlockNativeGasResponse). -/
structure BlockNativeGasResponse where
  system : Option String
  network : Option String
  unit : Option String
  max_price : Option Nat
  block_prices : List BlockPrice
  deriving DecidableEq

/-- Model of the reqwest HTTP client built in BlockNative::new: the only observable
configuration is the default Authorization header holding the api key. -/
structure Client where
  authorization : String
  deriving DecidableEq

/-- The fixed service endpoint (BLOCKNATIVE_GAS_PRICE_ENDPOINT). -/
def BLOCKNATIVE_GAS_PRICE_ENDPOINT : String :=
  "https://api.blocknative.com/gasprices/blockprices"

/-- The BlockNative oracle: HTTP client, fixed endpoint URL, gas category. -/
structure BlockNative where
  client : Client
  url : String
  gas_category : GasCategory
  deriving DecidableEq

/-- Outcome of running code that may panic (unwrap on a None/Err, or todo). -/
inductive PanicOr (α : Type) where
  | panics (msg : String)
  | ok (value : α)

/-! ### Operations -/

/-- Embedding of gas_category_to_confidence. -/
def gas_category_to_confidence : GasCategory → Nat
  | .SafeLow => 80
  | .Standard => 90
  | .Fast => 95
  | .Fastest => 99

/-- Modelled from the spec: validity of an HTTP header value, the check performed by
HeaderValue::from_str in the external http crate: every byte is horizontal tab or
a byte at or above 32 other than delete (127); bytes of multi-byte UTF-8
characters are all at or above 128 and therefore pass. -/
def headerValueValid (s : String) : Bool :=
  s.toList.all fun c => decide (c.toNat = 9 ∨ (32 ≤ c.toNat ∧ c.toNat ≠ 127))

/-- Embedding of BlockNative::new.  The source unwraps HeaderValue::from_str, so an
api key that is not a valid header value panics; otherwise the client is built
with the Authorization default header, the fixed endpoint, and category Standard.
The builds of the client itself and of the constant URL never fail. -/
def BlockNative.new (api_key : String) : PanicOr BlockNative :=
  if headerValueValid api_key then
    .ok { client := { authorization := api_key },
          url := BLOCKNATIVE_GAS_PRICE_ENDPOINT,
          gas_category := .Standard }
  else
    .panics "called Result::unwrap on an Err value"

/-- Embedding of BlockNative::category: sets the gas category and returns the
updated oracle. -/
def BlockNative.category (self : BlockNative) (gas_category : GasCategory) : BlockNative :=
  { self with gas_category := gas_category }

/-- Severity of an emitted log record. -/
inductive LogLevel where
  | error
  | warn
  | info
  deriving DecidableEq

/-- One emitted log record (the tracing side effect modelled as data). -/
structure LogRecord where
  level : LogLevel
  message : String
  deriving DecidableEq

/-- Embedding of BlockNative::query.  The HTTP transport and the serde_json decoder
are external collaborators and enter as parameters: `transport` is the outcome of
send plus text (the response body, or a transport error propagated by the
question-mark operator), `decode` is the schema decoder.  On decode failure the
source logs the raw body and the decode error at error severity and returns the
SerdeJsonError kind wrapping the cause; the log side effect is returned as data. -/
def BlockNative.query (transport : Except String String)
    (decode : String → Except String BlockNativeGasResponse) :
    Except GasOracleError BlockNativeGasResponse × List LogRecord :=
  match transport with
  | .error e => (.error (.HttpClientError e), [])
  | .ok text =>
    match decode text with
    | .ok r => (.ok r, [])
    | .error e =>
      (.error (.SerdeJsonError e),
       [{ level := .error,
          message := "error from blocknative: " ++ e ++ " (resp: " ++ text ++ ")" }])

/-- Conversion applied to one floating gwei fee field in estimate_eip1559_fees:
U256::from((x * 100.0) as u64) * U256::from(GWEI_TO_WEI) / U256::from(100).
The float multiply rounds, the cast saturates and truncates; the U256 operands
stay below 2^94, so Nat models the U256 arithmetic exactly. -/
def feeToWei (x : ℚ) : Nat :=
  f64ToU64 (roundDouble (100 * x)) * GWEI_TO_WEI / 100

/-- Embedding of GasOracle::estimate_eip1559_fees for BlockNative, as a function of
the query outcome.  A transport or decode error propagates.  Vec::pop takes the
LAST element of block_prices and its unwrap panics on an empty vector; find
returns the first tier whose confidence equals the configured percentile and its
unwrap panics when none matches. -/
def BlockNative.estimate_eip1559_fees (self : BlockNative)
    (queryResult : Except GasOracleError BlockNativeGasResponse) :
    PanicOr (Except GasOracleError (Nat × Nat)) :=
  match queryResult with
  | .error e => .ok (.error e)
  | .ok res =>
    let confidence := gas_category_to_confidence self.gas_category
    match res.block_prices.getLast? with
    | none => .panics "called Option::unwrap on a None value"
    | some blk =>
      match blk.estimated_prices.find? (fun p => p.confidence == confidence) with
      | none => .panics "called Option::unwrap on a None value"
      | some tier =>
        .ok (.ok (feeToWei tier.max_fee_per_gas, feeToWei tier.max_priority_fee_per_gas))

/-- Embedding of GasOracle::fetch for BlockNative: the body is todo, which panics
unconditionally before anything else runs; the intended implementation exists only
as commented-out code. -/
def BlockNative.fetch (_self : BlockNative)
    (_queryResult : Except GasOracleError BlockNativeGasResponse) :
    PanicOr (Except GasOracleError Nat) :=
  .panics "not yet implemented"

/-- Modelled from the spec: the intended fetch behaviour (query plus tier
selection, then (price * GWEI_TO_WEI) / 10), which the source keeps only as
commented-out code inside the todo body. -/
def BlockNative.fetchSpec (self : BlockNative)
    (queryResult : Except GasOracleError BlockNativeGasResponse) :
    PanicOr (Except GasOracleError Nat) :=
  match queryResult with
  | .error e => .ok (.error e)
  | .ok res =>
    let confidence := gas_category_to_confidence self.gas_category
    match res.block_prices.getLast? with
    | none => .panics "called Option::unwrap on a None value"
    | some blk =>
      match blk.estimated_prices.find? (fun p => p.confidence == confidence) with
      | none => .panics "called Option::unwrap on a None value"
      | some tier => .ok (.ok (tier.price * GWEI_TO_WEI / 10))

/-! ### Concrete fixtures used by witnesses and counterexamples -/

/-- Oracle configured with category Standard (the default after construction). -/
def stdOracle : BlockNative :=
  { client := { authorization := "key" }, url := BLOCKNATIVE_GAS_PRICE_ENDPOINT,
    gas_category := .Standard }

/-- Oracle configured with category Fast. -/
def fastOracle : BlockNative := stdOracle.category .Fast

/-- Response whose block_prices array is empty. -/
def emptyResp : BlockNativeGasResponse :=
  { system := none, network := none, unit := none, max_price := none, block_prices := [] }

/-- Block holding the four standard tiers with prices 10, 20, 30, 40 gwei and exactly
representable fee floats. -/
def blk4 : BlockPrice :=
  { block_number := 100, estimated_transaction_count := 150, base_fee_per_gas := 25,
    estimated_prices :=
      [{ confidence := 80, price := 10, max_priority_fee_per_gas := 1, max_fee_per_gas := 11 },
       { confidence := 90, price := 20, max_priority_fee_per_gas := 2, max_fee_per_gas := 22 },
       { confidence := 95, price := 30, max_priority_fee_per_gas := 3, max_fee_per_gas := 33 },
       { confidence := 99, price := 40, max_priority_fee_per_gas := 4, max_fee_per_gas := 44 }] }

/-- Response with one block holding the four standard tiers. -/
def resp4 : BlockNativeGasResponse :=
  { system := some "ethereum", network := some "main", unit := some "gwei",
    max_price := some 200, block_prices := [blk4] }

/-- Block holding a single tier at confidence 90 with integer price 100. -/
def blk100 : BlockPrice :=
  { block_number := 7, estimated_transaction_count := 50, base_fee_per_gas := 10,
    estimated_prices :=
      [{ confidence := 90, price := 100, max_priority_fee_per_gas := 1, max_fee_per_gas := 2 }] }

/-- Response with one block whose confidence-90 tier has integer price 100. -/
def resp100 : BlockNativeGasResponse :=
  { system := none, network := none, unit := none, max_price := none, block_prices := [blk100] }

/-- Block whose tiers skip confidence 95 (only 80, 90, 99 present). -/
def blkNo95 : BlockPrice :=
  { block_number := 8, estimated_transaction_count := 60, base_fee_per_gas := 12,
    estimated_prices :=
      [{ confidence := 80, price := 10, max_priority_fee_per_gas := 1, max_fee_per_gas := 11 },
       { confidence := 90, price := 20, max_priority_fee_per_gas := 2, max_fee_per_gas := 22 },
       { confidence := 99, price := 40, max_priority_fee_per_gas := 4, max_fee_per_gas := 44 }] }

/-- Response whose only (hence last) block lacks a confidence-95 tier. -/
def respNo95 : BlockNativeGasResponse :=
  { system := none, network := none, unit := none, max_price := none, block_prices := [blkNo95] }

/-- The confidence-95 tier carried by the LAST block of the two-block response:
its fee floats are the doubles parsed from the decimals 12.34 and 5.67. -/
def tier95B : EstimatedPrice :=
  { confidence := 95, price := 30,
    max_priority_fee_per_gas := roundDouble ((567 : ℚ) / 100),
    max_fee_per_gas := roundDouble ((1234 : ℚ) / 100) }

/-- First block of the two-block response, carrying a conflicting confidence-95
tier whose values differ from the ones in the last block. -/
def blkFirst : BlockPrice :=
  { block_number := 41, estimated_transaction_count := 70, base_fee_per_gas := 30,
    estimated_prices :=
      [{ confidence := 95, price := 999, max_priority_fee_per_gas := 9, max_fee_per_gas := 99 }] }

/-- Last block of the two-block response. -/
def blkLast : BlockPrice :=
  { block_number := 42, estimated_transaction_count := 80, base_fee_per_gas := 31,
    estimated_prices := [tier95B] }

/-- Response with two block-price entries whose confidence-95 tiers disagree. -/
def respMulti : BlockNativeGasResponse :=
  { system := none, network := none, unit := none, max_price := none,
    block_prices := [blkFirst, blkLast] }

/-- Tier whose max fee is the double parsed from the two-decimal value 0.29, the
input on which the conversion drifts, and whose max priority fee is the double
parsed from 5.67, on which it is exact. -/
def tierDrift : EstimatedPrice :=
  { confidence := 90, price := 1,
    max_priority_fee_per_gas := roundDouble ((567 : ℚ) / 100),
    max_fee_per_gas := roundDouble ((29 : ℚ) / 100) }

/-- Block carrying the drifting tier. -/
def blkDrift : BlockPrice :=
  { block_number := 9, estimated_transaction_count := 90, base_fee_per_gas := 1,
    estimated_prices := [tierDrift] }

/-- Response whose selected tier carries the drifting 0.29 max fee. -/
def respDrift : BlockNativeGasResponse :=
  { system := none, network := none, unit := none, max_price := none,
    block_prices := [blkDrift] }

/-! ### Helper lemmas -/

theorem dyadic_nonneg (rn : Nat) (s : Int) : 0 ≤ dyadic rn s := by
  unfold dyadic
  split
  · exact_mod_cast Nat.zero_le _
  · exact div_nonneg (Nat.cast_nonneg _) (Nat.cast_nonneg _)

theorem roundPos_nonneg (a b : Nat) : 0 ≤ roundPos a b := by
  unfold roundPos
  dsimp only
  split <;> exact dyadic_nonneg _ _

theorem roundDouble_nonpos {x : ℚ} (hx : x < 0) : roundDouble x ≤ 0 := by
  unfold roundDouble
  rw [if_neg (ne_of_lt hx), if_neg (not_lt.mpr hx.le)]
  simpa using roundPos_nonneg (-x.num).toNat x.den

theorem f64ToU64_nonpos {y : ℚ} (hy : y ≤ 0) : f64ToU64 y = 0 := by
  rcases lt_or_eq_of_le hy with h | h
  · unfold f64ToU64
    rw [if_pos h]
  · subst h
    rfl

theorem f64ToU64_saturate {y : ℚ} (hy : (18446744073709551616 : ℚ) ≤ y) :
    f64ToU64 y = 18446744073709551615 := by
  unfold f64ToU64
  rw [if_neg (not_lt.mpr (le_trans (by norm_num) hy)), if_pos hy]

/-! ### Claim theorems -/

/-- C5: the GasCategory-to-confidence mapping is a fixed total function on the
closed set of categories: SafeLow to 80, Standard to 90, Fast to 95 and
Fastest to 99. -/
theorem gas_category_confidence_total :
    gas_category_to_confidence .SafeLow = 80 ∧
    gas_category_to_confidence .Standard = 90 ∧
    gas_category_to_confidence .Fast = 95 ∧
    gas_category_to_confidence .Fastest = 99 ∧
    ∀ c : GasCategory, c = .SafeLow ∨ c = .Standard ∨ c = .Fast ∨ c = .Fastest := by
  refine ⟨rfl, rfl, rfl, rfl, ?_⟩
  intro c
  cases c
  · exact Or.inl rfl
  · exact Or.inr (Or.inl rfl)
  · exact Or.inr (Or.inr (Or.inl rfl))
  · exact Or.inr (Or.inr (Or.inr rfl))

/-- C9: the category builder updates only the gas_category field; the client and
url fields of the returned oracle are those of the input oracle. -/
theorem category_only_sets_gas_category (self : BlockNative) (c : GasCategory) :
    (self.category c).client = self.client ∧
    (self.category c).url = self.url ∧
    (self.category c).gas_category = c :=
  ⟨rfl, rfl, rfl⟩

/-- C4: tier selection in estimate_eip1559_fees uses the last element of the
block_prices sequence, never the first (the result does not depend on the leading
blocks at all), and within that block it picks a tier whose confidence equals the
configured category percentile. -/
theorem selection_uses_last_block (self : BlockNative)
    (sys net u : Option String) (mp : Option Nat)
    (l : List BlockPrice) (b : BlockPrice) (t : EstimatedPrice)
    (hfind : b.estimated_prices.find?
        (fun p => p.confidence == gas_category_to_confidence self.gas_category) = some t) :
    self.estimate_eip1559_fees (.ok ⟨sys, net, u, mp, l ++ [b]⟩) =
      .ok (.ok (feeToWei t.max_fee_per_gas, feeToWei t.max_priority_fee_per_gas)) ∧
    t.confidence = gas_category_to_confidence self.gas_category := by
  constructor
  · simp only [BlockNative.estimate_eip1559_fees, List.getLast?_concat, hfind]
  · simpa using List.find?_some hfind

/-- Witness for C4: on a concrete two-block response whose first block carries a
conflicting confidence-95 tier, selection with category Fast returns the tier of
the last block. -/
theorem selection_uses_last_block_witness :
    fastOracle.estimate_eip1559_fees (.ok respMulti) =
      .ok (.ok (feeToWei tier95B.max_fee_per_gas, feeToWei tier95B.max_priority_fee_per_gas)) ∧
    tier95B.confidence = gas_category_to_confidence fastOracle.gas_category := by
  have h := selection_uses_last_block fastOracle none none none none
    [blkFirst] blkLast tier95B rfl
  exact ⟨h.1, h.2⟩

/-- C10: when the query succeeds, block_prices is non-empty, and its last block
holds a tier at the configured confidence percentile, estimate_eip1559_fees does
not panic: it returns Ok with the converted fee pair of a matching tier. -/
theorem estimate_no_panic_on_wellformed (self : BlockNative)
    (res : BlockNativeGasResponse) (b : BlockPrice)
    (hlast : res.block_prices.getLast? = some b)
    (hmatch : ∃ t ∈ b.estimated_prices,
        t.confidence = gas_category_to_confidence self.gas_category) :
    ∃ t : EstimatedPrice,
      self.estimate_eip1559_fees (.ok res) =
        .ok (.ok (feeToWei t.max_fee_per_gas, feeToWei t.max_priority_fee_per_gas)) := by
  obtain ⟨t0, ht0mem, ht0conf⟩ := hmatch
  have hsome : (b.estimated_prices.find?
      (fun p => p.confidence == gas_category_to_confidence self.gas_category)).isSome := by
    rw [List.find?_isSome]
    exact ⟨t0, ht0mem, by simp [ht0conf]⟩
  obtain ⟨t, ht⟩ := Option.isSome_iff_exists.mp hsome
  refine ⟨t, ?_⟩
  simp only [BlockNative.estimate_eip1559_fees, hlast, ht]

/-- Witness for C10: a response with one block holding the four standard tiers is
converted without panic under the default Standard category. -/
theorem estimate_no_panic_on_wellformed_witness :
    ∃ t : EstimatedPrice,
      stdOracle.estimate_eip1559_fees (.ok resp4) =
        .ok (.ok (feeToWei t.max_fee_per_gas, feeToWei t.max_priority_fee_per_gas)) :=
  estimate_no_panic_on_wellformed stdOracle resp4 blk4 rfl (by decide)

/-- C7: on decode failure, query logs one record at error severity whose message
holds the decode error and the raw response body, and returns the SerdeJsonError
kind wrapping the cause. -/
theorem query_decode_error_logs (body e : String)
    (decode : String → Except String BlockNativeGasResponse)
    (hdec : decode body = .error e) :
    BlockNative.query (.ok body) decode =
      (.error (.SerdeJsonError e),
       [{ level := .error,
          message := "error from blocknative: " ++ e ++ " (resp: " ++ body ++ ")" }]) := by
  simp only [BlockNative.query, hdec]

/-- Witness for C7: a decoder rejecting a non-JSON body makes query return the
decode-error kind and emit the diagnostic record. -/
theorem query_decode_error_logs_witness :
    BlockNative.query (.ok "oops not json") (fun _ => .error "expected value at line 1") =
      (.error (.SerdeJsonError "expected value at line 1"),
       [{ level := .error,
          message := "error from blocknative: expected value at line 1 (resp: oops not json)" }]) :=
  query_decode_error_logs "oops not json" "expected value at line 1"
    (fun _ => .error "expected value at line 1") rfl

/-- C1: fetch never performs the specified computation: its body is todo, so it
panics on every configuration and every query outcome, while the spec-modelled
fetch on a confidence-90 tier with integer price 100 returns
100 * 10^9 / 10 = 10000000000 wei. -/
theorem fetch_todo_contradicts_spec :
    stdOracle.fetch (.ok resp100) = .panics "not yet implemented" ∧
    stdOracle.fetchSpec (.ok resp100) = .ok (.ok 10000000000) ∧
    ∀ (self : BlockNative) (q : Except GasOracleError BlockNativeGasResponse),
      self.fetch q = .panics "not yet implemented" :=
  ⟨rfl, rfl, fun _ _ => rfl⟩

/-- C3: a response with an empty blockPrices array makes estimate_eip1559_fees
panic on the unwrap after pop, a response whose last block lacks the configured
confidence tier makes it panic on the unwrap after find, and fetch panics
unconditionally; none of these returns the data-consistency error the claim
requires. -/
theorem estimate_data_absence_panics :
    stdOracle.estimate_eip1559_fees (.ok emptyResp) =
      .panics "called Option::unwrap on a None value" ∧
    fastOracle.estimate_eip1559_fees (.ok respNo95) =
      .panics "called Option::unwrap on a None value" ∧
    stdOracle.fetch (.ok emptyResp) = .panics "not yet implemented" :=
  ⟨rfl, rfl, rfl⟩

/-- C6 counterexample: a newline is not a valid header value, and construction from
it panics on the unwrap of HeaderValue::from_str instead of returning an error to
the caller as the claim states. -/
theorem new_invalid_key_panics :
    headerValueValid "\n" = false ∧
    BlockNative.new "\n" = .panics "called Result::unwrap on an Err value" :=
  ⟨rfl, rfl⟩

/-- C6 amended: construction from a credential that cannot be encoded as a valid
header value panics (crashes) rather than returning an error; construction from a
valid credential succeeds with the credential as the Authorization header, the
fixed endpoint, and the default category Standard. -/
theorem new_header_validation (api_key : String) :
    (headerValueValid api_key = false →
      BlockNative.new api_key = .panics "called Result::unwrap on an Err value") ∧
    (headerValueValid api_key = true →
      BlockNative.new api_key =
        .ok ⟨⟨api_key⟩, BLOCKNATIVE_GAS_PRICE_ENDPOINT, .Standard⟩) := by
  constructor <;> intro h <;> simp only [BlockNative.new, h] <;> rfl

/-- Witness for C6: a plain api key constructs the oracle with default category
Standard, and a key holding a newline panics. -/
theorem new_header_validation_witness :
    BlockNative.new "my-api-key" =
      .ok ⟨⟨"my-api-key"⟩, BLOCKNATIVE_GAS_PRICE_ENDPOINT, .Standard⟩ ∧
    BlockNative.new "bad\nkey" = .panics "called Result::unwrap on an Err value" :=
  ⟨(new_header_validation "my-api-key").2 rfl, (new_header_validation "bad\nkey").1 rfl⟩

/-- C2 counterexample: the two-decimal input 0.29 gwei (inside the claimed range
0.01 to 10000.00) drifts: the double nearest 0.29 times 100.0 rounds to just
below 29, the cast truncates to 28, and the converted fee is 280000000 wei, not
0.29 * 10^9 = 290000000; on a response whose selected tier carries that max fee,
estimate_eip1559_fees returns the drifted pair. -/
theorem estimate_two_decimal_drift :
    feeToWei (roundDouble ((29 : ℚ) / 100)) = 280000000 ∧
    feeToWei (roundDouble ((29 : ℚ) / 100)) ≠ 290000000 ∧
    stdOracle.estimate_eip1559_fees (.ok respDrift) =
      .ok (.ok (280000000, 5670000000)) := by
  refine ⟨?_, ?_, ?_⟩
  · with_unfolding_all decide
  · with_unfolding_all decide
  · with_unfolding_all rfl

/-- C2 amended: estimate_eip1559_fees returns the pair (converted max fee,
converted max priority fee), each f64 gwei field converted by rounding its product
with 100.0, truncating through the saturating u64 cast, multiplying by 10^9 and
dividing by 100; the conversion is exact on the two-decimal input 12.34, yielding
12340000000 wei, but not on every two-decimal input in 0.01 to 10000.00. -/
theorem estimate_conversion_formula (self : BlockNative)
    (res : BlockNativeGasResponse) (b : BlockPrice) (t : EstimatedPrice)
    (hlast : res.block_prices.getLast? = some b)
    (hfind : b.estimated_prices.find?
        (fun p => p.confidence == gas_category_to_confidence self.gas_category) = some t) :
    self.estimate_eip1559_fees (.ok res) =
      .ok (.ok (f64ToU64 (roundDouble (100 * t.max_fee_per_gas)) * GWEI_TO_WEI / 100,
        f64ToU64 (roundDouble (100 * t.max_priority_fee_per_gas)) * GWEI_TO_WEI / 100)) ∧
    feeToWei (roundDouble ((1234 : ℚ) / 100)) = 12340000000 := by
  constructor
  · simp only [BlockNative.estimate_eip1559_fees, hlast, hfind]
    rfl
  · with_unfolding_all decide

/-- Witness for C2: the formula instantiated on the concrete drifting response,
with the exact 12.34 conversion. -/
theorem estimate_conversion_formula_witness :
    stdOracle.estimate_eip1559_fees (.ok respDrift) =
      .ok (.ok (f64ToU64 (roundDouble (100 * tierDrift.max_fee_per_gas)) * GWEI_TO_WEI / 100,
        f64ToU64 (roundDouble (100 * tierDrift.max_priority_fee_per_gas)) * GWEI_TO_WEI / 100)) ∧
    feeToWei (roundDouble ((1234 : ℚ) / 100)) = 12340000000 :=
  estimate_conversion_formula stdOracle respDrift blkDrift tierDrift rfl rfl

/-- C8: the float-to-u64 cast in the fee conversion saturates: a negative fee field
converts to exactly 0 wei, and a fee field whose rounded product with 100.0
reaches 2^64 converts through u64::MAX; neither produces an error, the conversion
being a total function into Nat. -/
theorem float_cast_saturates (x y : ℚ) (hx : x < 0)
    (hy : (18446744073709551616 : ℚ) ≤ roundDouble (100 * y)) :
    feeToWei x = 0 ∧ feeToWei y = 18446744073709551615 * GWEI_TO_WEI / 100 := by
  constructor
  · have h100 : 100 * x < 0 := mul_neg_of_pos_of_neg (by norm_num) hx
    unfold feeToWei
    rw [f64ToU64_nonpos (roundDouble_nonpos h100)]
    rfl
  · unfold feeToWei
    rw [f64ToU64_saturate hy]

/-- Witness for C8: the fee float -1.0 converts to 0 wei, and the fee float 2^64
saturates the cast at u64::MAX. -/
theorem float_cast_saturates_witness :
    feeToWei (-1) = 0 ∧
    feeToWei 18446744073709551616 = 18446744073709551615 * GWEI_TO_WEI / 100 :=
  float_cast_saturates (-1) 18446744073709551616 (by norm_num)
    (by with_unfolding_all decide)
